import Mathlib

/-!
Shallow embedding of the quiz/timer backend (Go, Echo framework).

The repository holds two variants of the program:
* `src/main.go` — the richer variant (count-up mode, `POST /set-question`,
  `type end` forces the text to "END").  Embedded at top level.
* `src/unnamed/part_000` — the simpler variant (no count-up mode, no HTTP
  write endpoint, `type end` leaves the text alone, un-pausing restores the
  duration from the last manual value).  Embedded in namespace `V0`.

Durations (`time.Duration`) and timestamps are modelled as `Int` nanosecond
counts.  Go's signed 64-bit arithmetic wraps on overflow, which `wrap64`
makes explicit at the arithmetic operations the source performs on
`time.Duration` values (`time.Duration(n) * time.Second`, duration
subtraction, `time.Since`).
-/

/-- 2^64, the modulus of Go's 64-bit integer arithmetic. -/
def UINT64_MOD : Int := 18446744073709551616

/-- Smallest value of Go's `int64` / `time.Duration`. -/
def INT64_MIN : Int := -9223372036854775808

/-- Largest value of Go's `int64` / `time.Duration`. -/
def INT64_MAX : Int := 9223372036854775807

/-- Two's-complement wrap-around of an integer into the `int64` range,
modelling Go's defined overflow behaviour for signed 64-bit arithmetic. -/
def wrap64 (x : Int) : Int :=
  (x + 9223372036854775808) % UINT64_MOD - 9223372036854775808

/-- `time.Since(t)` evaluated when the wall clock reads `now`:
the `time.Duration` (int64 nanoseconds) `now - t`. -/
def timeSince (startTime now : Int) : Int := wrap64 (now - startTime)

/-- The `Question` struct of `src/main.go`: display text, remaining-time
budget (`time.Duration`), display type, start timestamp, count-up flag. -/
structure Question where
  question : String
  timeLeft : Int
  type : String
  startTime : Int
  countUp : Bool
deriving DecidableEq, Repr

/-- Result of the `GET /get-question` handler: the stored record after the
call (the handler only reads it) and the JSON response body. -/
structure GetResult where
  store : Question
  response : Question
deriving DecidableEq, Repr

/-- Response body computed by `getQuestion` in `src/main.go` (lines 103-124):
the handler copies the stored record into `q`, returns it verbatim when
paused, otherwise replaces `TimeLeft` by the live-derived value, clamping a
negative countdown remainder to zero and projecting `Type` to "end". -/
def getQuestionResponse (question : Question) (pause : Bool) (now : Int) :
    Question :=
  let q := question
  if pause then q
  else if q.countUp then
    { q with timeLeft := timeSince q.startTime now }
  else
    let tl := wrap64 (q.timeLeft - timeSince q.startTime now)
    if tl < 0 then { q with timeLeft := 0, type := "end" }
    else { q with timeLeft := tl }

/-- The `GET /get-question` handler of `src/main.go`: it takes a read lock,
never assigns to the shared `question`, and serves the derived projection. -/
def getQuestion (question : Question) (pause : Bool) (now : Int) : GetResult :=
  ⟨question, getQuestionResponse question pause now⟩

/-- The `validTypes` set used by both the HTTP validator and the CLI
`type` command in `src/main.go`. -/
def validTypes (t : String) : Bool :=
  t = "pomoc" || t = "rozstrel" || t = "waiting" || t = "end"

/-- `validateQuestion` of `src/main.go` (lines 150-164): `some msg` is a
returned validation error, `none` means the record is accepted. -/
def validateQuestion (q : Question) : Option String :=
  if q.timeLeft < 0 then some "time_left must be non-negative"
  else if !validTypes q.type then
    some "invalid type. Must be one of: pomoc, rozstrel, waiting, end"
  else none

/-- JSON body answered by `POST /set-question`. -/
inductive SetResponse where
  | ok (q : Question)
  | badRequest (msg : String)
deriving DecidableEq, Repr

/-- Result of the `POST /set-question` handler: stored record after the
call, HTTP status, response body. -/
structure SetResult where
  store : Question
  status : Nat
  response : SetResponse
deriving DecidableEq, Repr

/-- The `POST /set-question` handler of `src/main.go` (lines 126-148),
applied to an already-bound request body `newQuestion`: validation happens
before any assignment to the store; on success the stored record becomes the
request with `StartTime` overwritten by the server clock, and a terminal
type forces the text to "END". -/
def setQuestion (stored newQuestion : Question) (now : Int) : SetResult :=
  match validateQuestion newQuestion with
  | some msg => ⟨stored, 400, SetResponse.badRequest msg⟩
  | none =>
    let q1 := { newQuestion with startTime := now }
    let q2 := if q1.type = "end" then { q1 with question := "END" } else q1
    ⟨q2, 200, SetResponse.ok q2⟩

/-- Go's `unicode.IsSpace`: the Unicode White_Space code points. -/
def goIsSpace (c : Char) : Bool :=
  let n := c.toNat
  decide ((9 ≤ n ∧ n ≤ 13) ∨ n = 32 ∨ n = 0x85 ∨ n = 0xA0 ∨ n = 0x1680 ∨
    (0x2000 ≤ n ∧ n ≤ 0x200A) ∨ n = 0x2028 ∨ n = 0x2029 ∨ n = 0x202F ∨
    n = 0x205F ∨ n = 0x3000)

/-- `strings.TrimSpace`: drop leading and trailing White_Space characters. -/
def trimSpace (s : String) : String :=
  ⟨((s.data.dropWhile goIsSpace).reverse.dropWhile goIsSpace).reverse⟩

/-- Accumulator-style splitter behind `fields`; `acc` holds the current
word reversed. -/
def fieldsAux : List Char → List Char → List (List Char)
  | acc, [] => if acc.isEmpty then [] else [acc.reverse]
  | acc, c :: cs =>
    if goIsSpace c then
      if acc.isEmpty then fieldsAux [] cs
      else acc.reverse :: fieldsAux [] cs
    else fieldsAux (c :: acc) cs

/-- `strings.Fields`: split around runs of White_Space, no empty pieces. -/
def fields (s : String) : List String :=
  (fieldsAux [] s.data).map fun l => ⟨l⟩

/-- Numeric value of a non-empty all-digit character list. -/
def digitsVal (l : List Char) : Option Nat :=
  if l = [] then none
  else if l.all Char.isDigit then
    some (l.foldl (fun a c => a * 10 + (c.toNat - 48)) 0)
  else none

/-- `strconv.Atoi` on a 64-bit platform: optional single sign, one or more
decimal digits, rejecting values outside the `int64` range (Go reports
`ErrRange` there and both call sites treat any error as a rejection). -/
def atoi (s : String) : Option Int :=
  let core : List Char → Bool → Option Int := fun ds neg =>
    match digitsVal ds with
    | none => none
    | some n =>
      let v : Int := if neg then -(n : Int) else (n : Int)
      if v < INT64_MIN ∨ INT64_MAX < v then none else some v
  match s.data with
  | '+' :: rest => core rest false
  | '-' :: rest => core rest true
  | l => core l false

example : atoi "10000000000" = some 10000000000 := by decide
example : atoi "-5" = some (-5) := by decide
example : atoi "last" = none := by decide
example : atoi "9223372036854775808" = none := by decide
example : fields "  time   30 " = ["time", "30"] := by decide
example : trimSpace "  a ; b  " = "a ; b" := by decide

/-- The mutable state the CLI loop of `src/main.go` works on: the shared
`question` record, the `pause` flag, the loop-local `lastTime`, and the
`loggingEnabled` flag. -/
structure CLIState where
  question : Question
  pause : Bool
  lastTime : Int
  loggingEnabled : Bool
deriving DecidableEq, Repr

/-- Outcome of processing one semicolon-delimited command: the state after
it, whether an error message was printed, and whether `os.Exit` ran. -/
structure StepResult where
  state : CLIState
  isError : Bool
  exited : Bool
deriving DecidableEq, Repr

/-- The `case "logging"` branch of the CLI switch in `src/main.go`. -/
def loggingCmd (st : CLIState) (rest : List String) : StepResult :=
  match rest with
  | [a] =>
    if a = "on" then ⟨{ st with loggingEnabled := true }, false, false⟩
    else if a = "off" then ⟨{ st with loggingEnabled := false }, false, false⟩
    else ⟨st, true, false⟩
  | _ => ⟨st, true, false⟩

/-- The `case "question"` branch: join the remaining words with single
spaces, restart the timer phase. -/
def questionCmd (st : CLIState) (now : Int) (rest : List String) : StepResult :=
  match rest with
  | [] => ⟨st, true, false⟩
  | _ =>
    ⟨{ st with question :=
        { st.question with
            question := String.intercalate " " rest, startTime := now } },
      false, false⟩

/-- The `case "time"` branch of `src/main.go` (lines 293-335): keywords
`last`, `pause`, `countUp`, else a non-negative integer; the stored
duration is `time.Duration(n) * time.Second`, which wraps in `int64`. -/
def timeCmd (st : CLIState) (now : Int) (rest : List String) : StepResult :=
  match rest with
  | [a] =>
    if a = "last" then
      ⟨{ st with question :=
          { st.question with
              timeLeft := wrap64 (st.lastTime * 1000000000),
              startTime := now, countUp := false } }, false, false⟩
    else if a = "pause" then
      let p := !st.pause
      if p then ⟨{ st with pause := p }, false, false⟩
      else
        ⟨{ st with
            pause := p
            question := { st.question with startTime := now } },
          false, false⟩
    else if a = "countUp" then
      ⟨{ st with question :=
          { st.question with startTime := now, countUp := true } },
        false, false⟩
    else
      match atoi a with
      | none => ⟨st, true, false⟩
      | some v =>
        if v < 0 then ⟨st, true, false⟩
        else
          ⟨{ st with
              lastTime := v
              question :=
                { st.question with
                    timeLeft := wrap64 (v * 1000000000),
                    startTime := now, countUp := false } }, false, false⟩
  | _ => ⟨st, true, false⟩

/-- The `case "type"` branch of `src/main.go` (lines 336-357): validate the
type, store it, and force the text to "END" for the terminal type. -/
def typeCmd (st : CLIState) (rest : List String) : StepResult :=
  match rest with
  | [t] =>
    if validTypes t then
      let q1 := { st.question with type := t }
      let q2 := if q1.type = "end" then { q1 with question := "END" } else q1
      ⟨{ st with question := q2 }, false, false⟩
    else ⟨st, true, false⟩
  | _ => ⟨st, true, false⟩

/-- The countdown figure printed by the `status` command (`src/main.go`
lines 358-374): elapsed time in count-up mode, otherwise the remaining
budget clamped at zero.  (The console divides this duration by 10^9 to
print whole seconds.) -/
def statusDisplay (q : Question) (now : Int) : Int :=
  if q.countUp then timeSince q.startTime now
  else
    let tl := wrap64 (q.timeLeft - timeSince q.startTime now)
    if tl < 0 then 0 else tl

/-- The CLI switch of `src/main.go` applied to the `strings.Fields` of one
semicolon-delimited command. -/
def processArgs (st : CLIState) (now : Int) (args : List String) : StepResult :=
  match args with
  | [] => ⟨st, false, false⟩
  | command :: rest =>
    if command = "logging" then loggingCmd st rest
    else if command = "exit" then ⟨st, false, true⟩
    else if command = "question" then questionCmd st now rest
    else if command = "time" then timeCmd st now rest
    else if command = "type" then typeCmd st rest
    else if command = "status" then ⟨st, false, false⟩
    else if command = "help" then ⟨st, false, false⟩
    else ⟨st, true, false⟩

/-- Process one already-trimmed command string. -/
def processCommand (st : CLIState) (now : Int) (cmd : String) : StepResult :=
  processArgs st now (fields cmd)

/-- Accumulator-style splitter behind `splitSemi`; `acc` holds the current
piece reversed. -/
def splitSemiAux : List Char → List Char → List (List Char)
  | acc, [] => [acc.reverse]
  | acc, c :: cs =>
    if c = ';' then acc.reverse :: splitSemiAux [] cs
    else splitSemiAux (c :: acc) cs

/-- `strings.Split(s, ";")`: cut around every semicolon, keeping empty
pieces (so `""` maps to `[""]`). -/
def splitSemi (s : String) : List String :=
  (splitSemiAux [] s.data).map fun l => ⟨l⟩

/-- The semicolon pipeline of the CLI loop: trim the line, split on ";",
trim each piece, skip empties. -/
def lineCommands (input : String) : List String :=
  let inp := trimSpace input
  if inp = "" then []
  else ((splitSemi inp).map trimSpace).filter fun c => !(c == "")

/-- Run a list of commands in order at one instant; `os.Exit` stops the
whole loop. -/
def runCommands (st : CLIState) (now : Int) : List String → CLIState
  | [] => st
  | c :: cs =>
    let r := processCommand st now c
    if r.exited then r.state else runCommands r.state now cs

/-- One iteration of the CLI loop of `src/main.go` on one input line. -/
def runLine (st : CLIState) (now : Int) (input : String) : CLIState :=
  runCommands st now (lineCommands input)

/-- Run a sequence of commands, each with its own wall-clock instant. -/
def runSession (st : CLIState) : List (Int × String) → CLIState
  | [] => st
  | p :: rest =>
    let r := processCommand st p.1 p.2
    if r.exited then r.state else runSession r.state rest

example :
    (processCommand ⟨⟨"q", 0, "pomoc", 0, false⟩, false, 0, false⟩ 7
      "time 30").state.question.timeLeft = 30000000000 := by decide

example :
    (processCommand ⟨⟨"q", 0, "pomoc", 0, false⟩, false, 0, false⟩ 7
      "time 10000000000").state.question.timeLeft
      = -8446744073709551616 := by decide

example :
    lineCommands "  question Pomoc na stole ; time 30;; type pomoc "
      = ["question Pomoc na stole", "time 30", "type pomoc"] := by decide

namespace V0

/-- The `Question` struct of `src/unnamed/part_000`: no count-up flag. -/
structure Question where
  question : String
  timeLeft : Int
  type : String
  startTime : Int
deriving DecidableEq, Repr

/-- Result of this variant's `GET /get-question` handler. -/
structure GetResult where
  store : Question
  response : Question
deriving DecidableEq, Repr

/-- Response body of `getQuestion` in `src/unnamed/part_000` (lines 52-68):
copy the stored record, return it verbatim when paused, otherwise derive
the countdown remainder, clamping below zero to `0` / type "end". -/
def getQuestionResponse (question : Question) (pauseFlag : Bool) (now : Int) :
    Question :=
  let q : Question :=
    ⟨question.question, question.timeLeft, question.type, question.startTime⟩
  if pauseFlag then q
  else
    let tl := wrap64 (question.timeLeft - timeSince question.startTime now)
    if tl < 0 then { q with timeLeft := 0, type := "end" }
    else { q with timeLeft := tl }

/-- The `GET /get-question` handler of `src/unnamed/part_000`: it never
assigns to the shared `question`. -/
def getQuestion (question : Question) (pauseFlag : Bool) (now : Int) :
    GetResult :=
  ⟨question, getQuestionResponse question pauseFlag now⟩

/-- The mutable state of this variant's CLI loop: the shared `question`,
the `Pause` global, the loop-local `lastTime`, and `loggingEnabled`. -/
structure CLIState where
  question : Question
  pause : Bool
  lastTime : Int
  loggingEnabled : Bool
deriving DecidableEq, Repr

/-- Outcome of processing one command in this variant. -/
structure StepResult where
  state : CLIState
  isError : Bool
  exited : Bool
deriving DecidableEq, Repr

/-- The `case "logging"` branch of `src/unnamed/part_000`. -/
def loggingCmd (st : CLIState) (rest : List String) : StepResult :=
  match rest with
  | [a] =>
    if a = "on" then ⟨{ st with loggingEnabled := true }, false, false⟩
    else if a = "off" then ⟨{ st with loggingEnabled := false }, false, false⟩
    else ⟨st, true, false⟩
  | _ => ⟨st, true, false⟩

/-- The `case "question"` branch of `src/unnamed/part_000`. -/
def questionCmd (st : CLIState) (now : Int) (rest : List String) : StepResult :=
  match rest with
  | [] => ⟨st, true, false⟩
  | _ =>
    ⟨{ st with question :=
        { st.question with
            question := String.intercalate " " rest, startTime := now } },
      false, false⟩

/-- The `case "time"` branch of `src/unnamed/part_000` (lines 205-234):
keywords `last` and `pause` only (no count-up mode here); un-pausing
restores the duration from `lastTime` besides restarting the clock. -/
def timeCmd (st : CLIState) (now : Int) (rest : List String) : StepResult :=
  match rest with
  | [a] =>
    if a = "last" then
      ⟨{ st with question :=
          { st.question with
              timeLeft := wrap64 (st.lastTime * 1000000000),
              startTime := now } }, false, false⟩
    else if a = "pause" then
      let p := !st.pause
      if p then ⟨{ st with pause := p }, false, false⟩
      else
        ⟨{ st with
            pause := p
            question :=
              { st.question with
                  startTime := now,
                  timeLeft := wrap64 (st.lastTime * 1000000000) } },
          false, false⟩
    else
      match atoi a with
      | none => ⟨st, true, false⟩
      | some v =>
        if v < 0 then ⟨st, true, false⟩
        else
          ⟨{ st with
              lastTime := v
              question :=
                { st.question with
                    timeLeft := wrap64 (v * 1000000000),
                    startTime := now } }, false, false⟩
  | _ => ⟨st, true, false⟩

/-- The `case "type"` branch of `src/unnamed/part_000` (lines 236-252):
it stores the validated type and nothing else — in particular it does NOT
rewrite the question text for the terminal type. -/
def typeCmd (st : CLIState) (rest : List String) : StepResult :=
  match rest with
  | [t] =>
    if validTypes t then
      ⟨{ st with question := { st.question with type := t } }, false, false⟩
    else ⟨st, true, false⟩
  | _ => ⟨st, true, false⟩

/-- The countdown figure printed by this variant's `status` command
(lines 254-263): remaining budget clamped at zero. -/
def statusDisplay (q : Question) (now : Int) : Int :=
  let tl := wrap64 (q.timeLeft - timeSince q.startTime now)
  if tl < 0 then 0 else tl

/-- The CLI switch of `src/unnamed/part_000` applied to the
`strings.Fields` of one semicolon-delimited command. -/
def processArgs (st : CLIState) (now : Int) (args : List String) : StepResult :=
  match args with
  | [] => ⟨st, false, false⟩
  | command :: rest =>
    if command = "logging" then loggingCmd st rest
    else if command = "exit" then ⟨st, false, true⟩
    else if command = "question" then questionCmd st now rest
    else if command = "time" then timeCmd st now rest
    else if command = "type" then typeCmd st rest
    else if command = "status" then ⟨st, false, false⟩
    else if command = "help" then ⟨st, false, false⟩
    else ⟨st, true, false⟩

/-- Process one already-trimmed command string in this variant. -/
def processCommand (st : CLIState) (now : Int) (cmd : String) : StepResult :=
  processArgs st now (fields cmd)

end V0

example :
    (V0.processCommand ⟨⟨"Default question", 30000000000, "pomoc", 0⟩,
      false, 0, false⟩ 0 "type end").state.question
      = ⟨"Default question", 30000000000, "end", 0⟩ := by decide

/-! ### Helper lemmas -/

theorem wrap64_eq_of_range (x : Int) (h1 : INT64_MIN ≤ x)
    (h2 : x ≤ INT64_MAX) : wrap64 x = x := by
  unfold INT64_MIN at h1
  unfold INT64_MAX at h2
  unfold wrap64 UINT64_MOD
  rw [Int.emod_eq_of_lt (by omega) (by omega)]
  omega

/-- In countdown mode, once the wall clock is strictly past
`startedAt + durationBudget` (and the elapsed time is representable),
the projection zeroes the timer and shows the terminal type. -/
theorem crossed_zero_projection (q : Question) (now : Int)
    (hc : q.countUp = false) (h0 : 0 ≤ q.timeLeft)
    (hlt : q.startTime + q.timeLeft < now)
    (hrange : now - q.startTime ≤ INT64_MAX) :
    getQuestionResponse q false now = { q with timeLeft := 0, type := "end" } := by
  have hmin : INT64_MIN ≤ now - q.startTime := by unfold INT64_MIN; omega
  have he : wrap64 (now - q.startTime) = now - q.startTime :=
    wrap64_eq_of_range _ hmin hrange
  have hd : wrap64 (q.timeLeft - (now - q.startTime))
      = q.timeLeft - (now - q.startTime) := by
    refine wrap64_eq_of_range _ ?_ ?_ <;>
      unfold INT64_MIN INT64_MAX at * <;> omega
  have hneg : q.timeLeft - (now - q.startTime) < 0 := by omega
  simp only [getQuestionResponse, timeSince, hc, Bool.false_eq_true,
    if_false, he, hd, if_pos hneg]

/-- In countdown mode, exactly at `now = startedAt + durationBudget` the
projection zeroes the timer but keeps the stored type (the strict `< 0`
comparison in the source does not fire at a remainder of exactly zero). -/
theorem boundary_projection (q : Question) (now : Int)
    (hc : q.countUp = false) (h0 : 0 ≤ q.timeLeft)
    (hmax : q.timeLeft ≤ INT64_MAX)
    (hnow : now = q.startTime + q.timeLeft) :
    getQuestionResponse q false now = { q with timeLeft := 0 } := by
  have hmin : INT64_MIN ≤ now - q.startTime := by unfold INT64_MIN; omega
  have he : wrap64 (now - q.startTime) = now - q.startTime :=
    wrap64_eq_of_range _ hmin (by omega)
  have hz : q.timeLeft - (now - q.startTime) = 0 := by omega
  have h0w : wrap64 0 = 0 :=
    wrap64_eq_of_range 0 (by unfold INT64_MIN; omega)
      (by unfold INT64_MAX; omega)
  simp only [getQuestionResponse, timeSince, hc, Bool.false_eq_true,
    if_false, he, hz, h0w, lt_irrefl, if_false]

/-! ### Claims about the read path -/

/-- Claim C1 (amended): for every valid countdown state (countUp false,
unpaused, non-negative representable budget), the projection at
`now = startedAt + durationBudget` reports `time_left = 0` with the stored
type unchanged, and at every strictly later representable `now` it reports
`time_left = 0` and `type = "end"`; the stored record never changes. -/
theorem countdown_boundary (q : Question) (now : Int)
    (hc : q.countUp = false) (h0 : 0 ≤ q.timeLeft)
    (hmax : q.timeLeft ≤ INT64_MAX) :
    (now = q.startTime + q.timeLeft →
      getQuestion q false now
        = ⟨q, { q with timeLeft := 0 }⟩) ∧
    (q.startTime + q.timeLeft < now → now - q.startTime ≤ INT64_MAX →
      getQuestion q false now
        = ⟨q, { q with timeLeft := 0, type := "end" }⟩) := by
  constructor
  · intro hnow
    unfold getQuestion
    rw [boundary_projection q now hc h0 hmax hnow]
  · intro hlt hrange
    unfold getQuestion
    rw [crossed_zero_projection q now hc h0 hlt hrange]

/-- Claim C1 witness: a concrete valid countdown state, evaluated exactly
at `startedAt + durationBudget` and one nanosecond later. -/
theorem countdown_boundary_witness :
    getQuestion ⟨"Default question", 30000000000, "pomoc", 0, false⟩ false
        30000000000
      = ⟨⟨"Default question", 30000000000, "pomoc", 0, false⟩,
         ⟨"Default question", 0, "pomoc", 0, false⟩⟩ ∧
    getQuestion ⟨"Default question", 30000000000, "pomoc", 0, false⟩ false
        30000000001
      = ⟨⟨"Default question", 30000000000, "pomoc", 0, false⟩,
         ⟨"Default question", 0, "end", 0, false⟩⟩ :=
  ⟨(countdown_boundary ⟨"Default question", 30000000000, "pomoc", 0, false⟩
      30000000000 rfl (by decide) (by decide)).1 (by decide),
   (countdown_boundary ⟨"Default question", 30000000000, "pomoc", 0, false⟩
      30000000001 rfl (by decide) (by decide)).2 (by decide) (by decide)⟩

/-- Claim C1 counterexample: at exactly `now = startedAt + durationBudget`
(state "pomoc", budget 30 s, started at 0, read at 30 s) the projection
reports `time_left = 0` but the type stays "pomoc" — it is not "end". -/
theorem countdown_boundary_cex :
    (getQuestion ⟨"Default question", 30000000000, "pomoc", 0, false⟩ false
        30000000000).response.timeLeft = 0 ∧
    (getQuestion ⟨"Default question", 30000000000, "pomoc", 0, false⟩ false
        30000000000).response.type = "pomoc" ∧
    ¬ (getQuestion ⟨"Default question", 30000000000, "pomoc", 0, false⟩ false
        30000000000).response.type = "end" := by
  decide

/-- Claim C4: `GET /get-question` never mutates the stored record — the
handler copies the record and edits only the copy — and in countdown mode,
once the remaining time has crossed zero, the response shows
`time_left = 0` and `type = "end"` while the store is untouched. -/
theorem get_question_never_mutates (q : Question) (p : Bool)
    (anyNow now : Int) (hc : q.countUp = false) (h0 : 0 ≤ q.timeLeft)
    (hlt : q.startTime + q.timeLeft < now)
    (hrange : now - q.startTime ≤ INT64_MAX) :
    (getQuestion q p anyNow).store = q ∧
    (getQuestion q false now).store = q ∧
    (getQuestion q false now).response.timeLeft = 0 ∧
    (getQuestion q false now).response.type = "end" := by
  refine ⟨rfl, rfl, ?_, ?_⟩ <;>
    simp [getQuestion, crossed_zero_projection q now hc h0 hlt hrange]

/-- Claim C4 witness: 31 simulated seconds into a 30-second "pomoc"
countdown, the GET response is `time_left = 0`, `type = "end"`, and the
stored record is unchanged. -/
theorem get_question_never_mutates_witness :
    (getQuestion ⟨"Pomoc na stole", 30000000000, "pomoc", 0, false⟩ true
        5).store = ⟨"Pomoc na stole", 30000000000, "pomoc", 0, false⟩ ∧
    (getQuestion ⟨"Pomoc na stole", 30000000000, "pomoc", 0, false⟩ false
        31000000000).store
      = ⟨"Pomoc na stole", 30000000000, "pomoc", 0, false⟩ ∧
    (getQuestion ⟨"Pomoc na stole", 30000000000, "pomoc", 0, false⟩ false
        31000000000).response.timeLeft = 0 ∧
    (getQuestion ⟨"Pomoc na stole", 30000000000, "pomoc", 0, false⟩ false
        31000000000).response.type = "end" :=
  get_question_never_mutates ⟨"Pomoc na stole", 30000000000, "pomoc", 0, false⟩
    true 5 31000000000 rfl (by decide) (by decide) (by decide)

/-- Claim C5: while the pause flag is true, the read-side derivation is
independent of the clock — both in `src/main.go` and in
`src/unnamed/part_000` the handler returns the stored fields verbatim. -/
theorem paused_read_now_independent (q : Question) (w : V0.Question)
    (n1 n2 m1 m2 : Int) :
    getQuestion q true n1 = getQuestion q true n2 ∧
    V0.getQuestion w true m1 = V0.getQuestion w true m2 :=
  ⟨rfl, rfl⟩

/-- Claim C6: in countdown mode the derived time-left is clamped at zero —
never negative — on the GET read path and in the `status` command of both
variants. -/
theorem derived_time_left_clamped (q : Question) (w : V0.Question)
    (now m : Int) (hc : q.countUp = false) :
    0 ≤ (getQuestion q false now).response.timeLeft ∧
    0 ≤ statusDisplay q now ∧
    0 ≤ (V0.getQuestion w false m).response.timeLeft ∧
    0 ≤ V0.statusDisplay w m := by
  refine ⟨?_, ?_, ?_, ?_⟩ <;>
    simp only [getQuestion, getQuestionResponse, statusDisplay,
      V0.getQuestion, V0.getQuestionResponse, V0.statusDisplay, timeSince,
      hc, Bool.false_eq_true, if_false] <;>
    split <;> (try simp) <;> omega

/-- Claim C6 witness: concrete overdue countdown states in both variants
still report a zero (not negative) time-left. -/
theorem derived_time_left_clamped_witness :
    0 ≤ (getQuestion ⟨"q", 30000000000, "pomoc", 0, false⟩ false
          99000000000).response.timeLeft ∧
    0 ≤ statusDisplay ⟨"q", 30000000000, "pomoc", 0, false⟩ 99000000000 ∧
    0 ≤ (V0.getQuestion ⟨"q", 30000000000, "pomoc", 0⟩ false
          99000000000).response.timeLeft ∧
    0 ≤ V0.statusDisplay ⟨"q", 30000000000, "pomoc", 0⟩ 99000000000 :=
  derived_time_left_clamped ⟨"q", 30000000000, "pomoc", 0, false⟩
    ⟨"q", 30000000000, "pomoc", 0⟩ 99000000000 99000000000 rfl

/-! ### Claims about the write paths -/

/-- Claim C3: a request body with a negative `time_left` or an unknown type
is answered 400 with an error JSON and the stored record is untouched
(validation runs before any assignment to the store). -/
theorem set_question_rejects_invalid (stored req : Question) (now : Int)
    (h : req.timeLeft < 0 ∨ validTypes req.type = false) :
    (setQuestion stored req now).store = stored ∧
    (setQuestion stored req now).status = 400 ∧
    ∃ msg, (setQuestion stored req now).response = SetResponse.badRequest msg := by
  obtain ⟨msg, hm⟩ : ∃ m, validateQuestion req = some m := by
    unfold validateQuestion
    rcases h with h | h
    · exact ⟨_, if_pos h⟩
    · by_cases h2 : req.timeLeft < 0
      · exact ⟨_, if_pos h2⟩
      · rw [if_neg h2, h]
        exact ⟨_, rfl⟩
  unfold setQuestion
  rw [hm]
  exact ⟨rfl, rfl, msg, rfl⟩

/-- Claim C3 witness: a body with `time_left = -1` and a body with type
"foo" are both rejected with the store intact. -/
theorem set_question_rejects_invalid_witness :
    ((setQuestion ⟨"keep", 30000000000, "pomoc", 7, false⟩
        ⟨"x", -1, "pomoc", 0, false⟩ 99).store
      = ⟨"keep", 30000000000, "pomoc", 7, false⟩ ∧
     (setQuestion ⟨"keep", 30000000000, "pomoc", 7, false⟩
        ⟨"x", -1, "pomoc", 0, false⟩ 99).status = 400 ∧
     ∃ msg, (setQuestion ⟨"keep", 30000000000, "pomoc", 7, false⟩
        ⟨"x", -1, "pomoc", 0, false⟩ 99).response
        = SetResponse.badRequest msg) ∧
    ((setQuestion ⟨"keep", 30000000000, "pomoc", 7, false⟩
        ⟨"x", 5, "foo", 0, false⟩ 99).store
      = ⟨"keep", 30000000000, "pomoc", 7, false⟩ ∧
     (setQuestion ⟨"keep", 30000000000, "pomoc", 7, false⟩
        ⟨"x", 5, "foo", 0, false⟩ 99).status = 400 ∧
     ∃ msg, (setQuestion ⟨"keep", 30000000000, "pomoc", 7, false⟩
        ⟨"x", 5, "foo", 0, false⟩ 99).response
        = SetResponse.badRequest msg) :=
  ⟨set_question_rejects_invalid ⟨"keep", 30000000000, "pomoc", 7, false⟩
      ⟨"x", -1, "pomoc", 0, false⟩ 99 (Or.inl (by decide)),
   set_question_rejects_invalid ⟨"keep", 30000000000, "pomoc", 7, false⟩
      ⟨"x", 5, "foo", 0, false⟩ 99 (Or.inr (by decide))⟩

/-- Claim C10: the client-supplied `start_time` in the body of
`POST /set-question` is ignored — the handler's outcome is independent of
it, and every accepted write stores the server clock as `StartTime`. -/
theorem set_question_ignores_client_start (stored req : Question)
    (now t1 t2 : Int) :
    setQuestion stored { req with startTime := t1 } now
      = setQuestion stored { req with startTime := t2 } now ∧
    ((setQuestion stored req now).status = 200 →
      (setQuestion stored req now).store.startTime = now) := by
  constructor
  · have h1 : validateQuestion { req with startTime := t1 }
        = validateQuestion req := rfl
    have h2 : validateQuestion { req with startTime := t2 }
        = validateQuestion req := rfl
    unfold setQuestion
    rw [h1, h2]
  · intro h
    cases hv : validateQuestion req with
    | some msg => simp [setQuestion, hv] at h
    | none =>
      simp only [setQuestion, hv]
      split <;> rfl

/-- Claim C10 witness: two bodies differing only in `start_time` give the
same result, and an accepted write stores the server clock 42. -/
theorem set_question_ignores_client_start_witness :
    setQuestion ⟨"keep", 1, "pomoc", 7, false⟩
        { (⟨"x", 5, "waiting", 0, false⟩ : Question) with startTime := 123 } 42
      = setQuestion ⟨"keep", 1, "pomoc", 7, false⟩
        { (⟨"x", 5, "waiting", 0, false⟩ : Question) with startTime := 456 } 42 ∧
    (setQuestion ⟨"keep", 1, "pomoc", 7, false⟩
        ⟨"x", 5, "waiting", 0, false⟩ 42).store.startTime = 42 :=
  ⟨(set_question_ignores_client_start ⟨"keep", 1, "pomoc", 7, false⟩
      ⟨"x", 5, "waiting", 0, false⟩ 42 123 456).1,
   (set_question_ignores_client_start ⟨"keep", 1, "pomoc", 7, false⟩
      ⟨"x", 5, "waiting", 0, false⟩ 42 0 0).2 (by decide)⟩

/-- Claim C2 (amended): in `src/main.go` every accepted write that sets the
type to "end" — the operator `type end` command as well as an accepted
`POST /set-question` body — forces the stored text to the literal "END";
in the `src/unnamed/part_000` variant the `type end` command stores the
type but leaves the text unchanged. -/
theorem type_end_forces_end_text (st : CLIState) (stored req : Question)
    (now : Int) (ht : req.type = "end") (h0 : 0 ≤ req.timeLeft) :
    (typeCmd st ["end"]).state.question.question = "END" ∧
    (typeCmd st ["end"]).state.question.type = "end" ∧
    (setQuestion stored req now).status = 200 ∧
    (setQuestion stored req now).store.question = "END" ∧
    (setQuestion stored req now).store.type = "end" := by
  have hv : validateQuestion req = none := by
    unfold validateQuestion
    rw [if_neg (not_lt.mpr h0), ht]
    rfl
  refine ⟨rfl, rfl, ?_, ?_, ?_⟩ <;>
    simp [setQuestion, hv, ht]

/-- Claim C2 witness: `type end` on a concrete CLI state and an accepted
"end" body both leave the stored text "END". -/
theorem type_end_forces_end_text_witness :
    (typeCmd ⟨⟨"Pomoc na stole", 5, "pomoc", 0, false⟩, false, 0, false⟩
        ["end"]).state.question.question = "END" ∧
    (typeCmd ⟨⟨"Pomoc na stole", 5, "pomoc", 0, false⟩, false, 0, false⟩
        ["end"]).state.question.type = "end" ∧
    (setQuestion ⟨"keep", 1, "pomoc", 7, false⟩
        ⟨"some text", 5, "end", 0, false⟩ 42).status = 200 ∧
    (setQuestion ⟨"keep", 1, "pomoc", 7, false⟩
        ⟨"some text", 5, "end", 0, false⟩ 42).store.question = "END" ∧
    (setQuestion ⟨"keep", 1, "pomoc", 7, false⟩
        ⟨"some text", 5, "end", 0, false⟩ 42).store.type = "end" :=
  type_end_forces_end_text
    ⟨⟨"Pomoc na stole", 5, "pomoc", 0, false⟩, false, 0, false⟩
    ⟨"keep", 1, "pomoc", 7, false⟩ ⟨"some text", 5, "end", 0, false⟩ 42
    rfl (by decide)

/-- Claim C2 counterexample: in `src/unnamed/part_000` the accepted
operator command `type end` stores the type "end" but leaves the stored
text at its prior value "Default question", not "END". -/
theorem type_end_keeps_text_in_v0 :
    (V0.processCommand ⟨⟨"Default question", 30000000000, "pomoc", 0⟩,
        false, 0, false⟩ 0 "type end").state.question.type = "end" ∧
    (V0.processCommand ⟨⟨"Default question", 30000000000, "pomoc", 0⟩,
        false, 0, false⟩ 0 "type end").state.question.question
      = "Default question" ∧
    ¬ (V0.processCommand ⟨⟨"Default question", 30000000000, "pomoc", 0⟩,
        false, 0, false⟩ 0 "type end").state.question.question = "END" := by
  decide

/-! ### Claims about the `time` command -/

theorem processArgs_time_eq (st : CLIState) (now : Int) (rest : List String) :
    processArgs st now ("time" :: rest) = timeCmd st now rest := rfl

/-- Effect of the numeric branch of the `time` command: the parsed value is
recorded as `lastTime` and the stored duration becomes the wrapped int64
product `v * 10^9`. -/
theorem timeCmd_numeric (st : CLIState) (now : Int) (s : String) (v : Int)
    (hs : atoi s = some v) (h0 : 0 ≤ v) :
    timeCmd st now [s]
      = ⟨{ st with
            lastTime := v
            question :=
              { st.question with
                  timeLeft := wrap64 (v * 1000000000),
                  startTime := now, countUp := false } }, false, false⟩ := by
  have hl : ¬ s = "last" := by
    intro h; rw [h, show atoi "last" = none from rfl] at hs; cases hs
  have hp : ¬ s = "pause" := by
    intro h; rw [h, show atoi "pause" = none from rfl] at hs; cases hs
  have hcu : ¬ s = "countUp" := by
    intro h; rw [h, show atoi "countUp" = none from rfl] at hs; cases hs
  simp only [timeCmd]
  rw [if_neg hl, if_neg hp, if_neg hcu]
  simp only [hs]
  rw [if_neg (not_lt.mpr h0)]

/-- Claim C7 (amended): a `time <N>` command whose argument parses to a
non-negative integer `v` with `v * 10^9` representable in int64 stores a
duration of exactly `v` seconds, sets `countUp` false, restarts the clock
and records `v` as the last manual duration; an argument that is not one
of the keywords and fails to parse, or parses negative, is rejected
without mutating any state.  (For larger `v` the stored duration is the
int64-wrapped product, not `v` seconds — see the counterexample.) -/
theorem time_numeric_command (st st2 : CLIState) (now now2 : Int)
    (s s2 : String) (v : Int)
    (hs : atoi s = some v) (h0 : 0 ≤ v) (hmax : v * 1000000000 ≤ INT64_MAX)
    (hk1 : ¬ s2 = "last") (hk2 : ¬ s2 = "pause") (hk3 : ¬ s2 = "countUp")
    (hbad : atoi s2 = none ∨ ∃ w, atoi s2 = some w ∧ w < 0) :
    processArgs st now ["time", s]
      = ⟨{ st with
            lastTime := v
            question :=
              { st.question with
                  timeLeft := v * 1000000000,
                  startTime := now, countUp := false } }, false, false⟩ ∧
    processArgs st2 now2 ["time", s2] = ⟨st2, true, false⟩ := by
  constructor
  · rw [processArgs_time_eq, timeCmd_numeric st now s v hs h0,
      wrap64_eq_of_range (v * 1000000000) (by unfold INT64_MIN; omega) hmax]
  · rw [processArgs_time_eq]
    simp only [timeCmd]
    rw [if_neg hk1, if_neg hk2, if_neg hk3]
    rcases hbad with hn | ⟨w, hw, hwneg⟩
    · simp only [hn]
    · simp only [hw]
      rw [if_pos hwneg]

/-- Claim C7 witness: `time 30` stores 30 seconds and records 30 as the
last manual duration; `time -5` is rejected without mutation. -/
theorem time_numeric_command_witness :
    processArgs ⟨⟨"q", 0, "pomoc", 0, false⟩, false, 0, false⟩ 7
        ["time", "30"]
      = ⟨⟨⟨"q", 30 * 1000000000, "pomoc", 7, false⟩, false, 30, false⟩,
          false, false⟩ ∧
    processArgs ⟨⟨"q", 0, "pomoc", 0, false⟩, false, 0, false⟩ 7
        ["time", "-5"]
      = ⟨⟨⟨"q", 0, "pomoc", 0, false⟩, false, 0, false⟩, true, false⟩ :=
  time_numeric_command ⟨⟨"q", 0, "pomoc", 0, false⟩, false, 0, false⟩
    ⟨⟨"q", 0, "pomoc", 0, false⟩, false, 0, false⟩ 7 7 "30" "-5" 30
    (by decide) (by decide) (by decide) (by decide) (by decide) (by decide)
    (Or.inr ⟨-5, by decide, by decide⟩)

/-- Claim C7 counterexample: `time 10000000000` passes Atoi and the
non-negativity check, yet the stored duration is the int64-wrapped value
-8446744073709551616 ns (negative!), not 10000000000 seconds. -/
theorem time_numeric_overflow_cex :
    (processCommand ⟨⟨"q", 30000000000, "pomoc", 0, false⟩, false, 0, false⟩
        7 "time 10000000000").state.question.timeLeft
      = -8446744073709551616 ∧
    (processCommand ⟨⟨"q", 30000000000, "pomoc", 0, false⟩, false, 0, false⟩
        7 "time 10000000000").state.question.timeLeft < 0 ∧
    ¬ (processCommand ⟨⟨"q", 30000000000, "pomoc", 0, false⟩, false, 0, false⟩
        7 "time 10000000000").state.question.timeLeft
      = 10000000000 * 1000000000 := by
  decide

/-- Commands whose processing assigns `lastTime`: exactly `time <a>` with
`a` parsing to a non-negative integer. -/
def numericTime (args : List String) : Bool :=
  match args with
  | [t, a] =>
    if t = "time" then
      match atoi a with
      | some v => decide (0 ≤ v)
      | none => false
    else false
  | _ => false

/-- Commands whose leading word is `exit` (which kills the process). -/
def exitCommand (args : List String) : Bool :=
  match args with
  | c :: _ => c == "exit"
  | [] => false

theorem loggingCmd_preserves (st : CLIState) (rest : List String) :
    (loggingCmd st rest).state.lastTime = st.lastTime ∧
    (loggingCmd st rest).exited = false := by
  rcases rest with _ | ⟨a, _ | ⟨b, t⟩⟩
  · exact ⟨rfl, rfl⟩
  · simp only [loggingCmd]
    split_ifs <;> exact ⟨rfl, rfl⟩
  · exact ⟨rfl, rfl⟩

theorem questionCmd_preserves (st : CLIState) (now : Int)
    (rest : List String) :
    (questionCmd st now rest).state.lastTime = st.lastTime ∧
    (questionCmd st now rest).exited = false := by
  rcases rest with _ | ⟨a, t⟩ <;> exact ⟨rfl, rfl⟩

theorem typeCmd_preserves (st : CLIState) (rest : List String) :
    (typeCmd st rest).state.lastTime = st.lastTime ∧
    (typeCmd st rest).exited = false := by
  rcases rest with _ | ⟨a, _ | ⟨b, t⟩⟩
  · exact ⟨rfl, rfl⟩
  · simp only [typeCmd]
    split_ifs <;> exact ⟨rfl, rfl⟩
  · exact ⟨rfl, rfl⟩

theorem timeCmd_preserves (st : CLIState) (now : Int) (rest : List String)
    (h : numericTime ("time" :: rest) = false) :
    (timeCmd st now rest).state.lastTime = st.lastTime ∧
    (timeCmd st now rest).exited = false := by
  rcases rest with _ | ⟨a, _ | ⟨b, t⟩⟩
  · exact ⟨rfl, rfl⟩
  · simp only [timeCmd]
    by_cases hl : a = "last"
    · rw [if_pos hl]; exact ⟨rfl, rfl⟩
    · rw [if_neg hl]
      by_cases hp : a = "pause"
      · rw [if_pos hp]
        split <;> exact ⟨rfl, rfl⟩
      · rw [if_neg hp]
        by_cases hcu : a = "countUp"
        · rw [if_pos hcu]; exact ⟨rfl, rfl⟩
        · rw [if_neg hcu]
          cases hat : atoi a with
          | none => simp [hat]
          | some v =>
            simp only [hat]
            by_cases hv : v < 0
            · rw [if_pos hv]; exact ⟨rfl, rfl⟩
            · have h0 : 0 ≤ v := not_lt.mp hv
              simp [numericTime, hat, h0] at h
  · exact ⟨rfl, rfl⟩

/-- Any single command that is not a numeric `time` command and does not
start with `exit` leaves `lastTime` unchanged and does not terminate the
process. -/
theorem processArgs_preserves_lastTime (st : CLIState) (now : Int)
    (args : List String) (h1 : numericTime args = false)
    (h2 : exitCommand args = false) :
    (processArgs st now args).state.lastTime = st.lastTime ∧
    (processArgs st now args).exited = false := by
  rcases args with _ | ⟨command, rest⟩
  · exact ⟨rfl, rfl⟩
  · simp only [processArgs]
    by_cases hlog : command = "logging"
    · rw [if_pos hlog]; exact loggingCmd_preserves st rest
    · rw [if_neg hlog]
      by_cases hexit : command = "exit"
      · exfalso
        simp only [exitCommand, hexit] at h2
        simp at h2
      · rw [if_neg hexit]
        by_cases hq : command = "question"
        · rw [if_pos hq]; exact questionCmd_preserves st now rest
        · rw [if_neg hq]
          by_cases htime : command = "time"
          · rw [if_pos htime]
            subst htime
            exact timeCmd_preserves st now rest h1
          · rw [if_neg htime]
            by_cases hty : command = "type"
            · rw [if_pos hty]; exact typeCmd_preserves st rest
            · rw [if_neg hty]
              by_cases hst : command = "status"
              · rw [if_pos hst]; exact ⟨rfl, rfl⟩
              · rw [if_neg hst]
                by_cases hh : command = "help"
                · rw [if_pos hh]; exact ⟨rfl, rfl⟩
                · rw [if_neg hh]; exact ⟨rfl, rfl⟩

/-- A session of non-interfering commands preserves `lastTime`. -/
theorem runSession_preserves_lastTime (mids : List (Int × String)) :
    ∀ st : CLIState,
      (∀ p ∈ mids, numericTime (fields p.2) = false
        ∧ exitCommand (fields p.2) = false) →
      (runSession st mids).lastTime = st.lastTime := by
  induction mids with
  | nil => intro st _; rfl
  | cons p rest ih =>
    intro st h
    have hp := h p (List.mem_cons_self p rest)
    have hpre := processArgs_preserves_lastTime st p.1 (fields p.2) hp.1 hp.2
    simp only [runSession, processCommand] at hpre ⊢
    rw [hpre.2]
    simp only [if_false, Bool.false_eq_true]
    rw [ih _ fun q hq => h q (List.mem_cons_of_mem p hq)]
    exact hpre.1

/-- Claim C8 (amended): after `time <s>` with `s` parsing to a non-negative
`v` whose duration `v * 10^9` is int64-representable, followed by any
commands that are neither numeric `time` commands nor `exit`, the command
`time last` restores the stored duration to exactly `v` seconds, sets
`countUp` false and restarts the clock at the moment of the `time last`
command.  (Without the representability bound the restored duration is the
int64-wrapped product — see the counterexample.) -/
theorem time_last_round_trip (st : CLIState) (n1 n2 : Int) (s : String)
    (v : Int) (mids : List (Int × String))
    (hs : atoi s = some v) (h0 : 0 ≤ v) (hmax : v * 1000000000 ≤ INT64_MAX)
    (hmid : ∀ p ∈ mids, numericTime (fields p.2) = false
      ∧ exitCommand (fields p.2) = false) :
    (processArgs
        (runSession (processArgs st n1 ["time", s]).state mids)
        n2 ["time", "last"]).state.question.timeLeft = v * 1000000000 ∧
    (processArgs
        (runSession (processArgs st n1 ["time", s]).state mids)
        n2 ["time", "last"]).state.question.countUp = false ∧
    (processArgs
        (runSession (processArgs st n1 ["time", s]).state mids)
        n2 ["time", "last"]).state.question.startTime = n2 ∧
    (processArgs
        (runSession (processArgs st n1 ["time", s]).state mids)
        n2 ["time", "last"]).state.lastTime = v := by
  have h1 : (processArgs st n1 ["time", s]).state.lastTime = v := by
    rw [processArgs_time_eq, timeCmd_numeric st n1 s v hs h0]
  have h2 : (runSession (processArgs st n1 ["time", s]).state mids).lastTime
      = v := by
    rw [runSession_preserves_lastTime mids _ hmid, h1]
  have hfin :
      processArgs (runSession (processArgs st n1 ["time", s]).state mids)
          n2 ["time", "last"]
        = ⟨{ (runSession (processArgs st n1 ["time", s]).state mids) with
              question :=
                { (runSession (processArgs st n1 ["time", s]).state
                    mids).question with
                    timeLeft := wrap64
                      ((runSession (processArgs st n1 ["time", s]).state
                        mids).lastTime * 1000000000),
                    startTime := n2, countUp := false } }, false, false⟩ := rfl
  rw [hfin]
  refine ⟨?_, rfl, rfl, h2⟩
  show wrap64
      ((runSession (processArgs st n1 ["time", s]).state mids).lastTime
        * 1000000000) = v * 1000000000
  rw [h2]
  exact wrap64_eq_of_range _ (by unfold INT64_MIN; omega) hmax

/-- Claim C8 witness: `time 30`, then a `status` and a `question` command,
then `time last` restores a 30-second budget with the clock restarted. -/
theorem time_last_round_trip_witness :
    (processArgs
        (runSession
          (processArgs ⟨⟨"q", 0, "pomoc", 0, false⟩, false, 0, false⟩ 1
            ["time", "30"]).state
          [(2, "status"), (3, "question zmena temy")])
        9 ["time", "last"]).state.question.timeLeft = 30 * 1000000000 ∧
    (processArgs
        (runSession
          (processArgs ⟨⟨"q", 0, "pomoc", 0, false⟩, false, 0, false⟩ 1
            ["time", "30"]).state
          [(2, "status"), (3, "question zmena temy")])
        9 ["time", "last"]).state.question.countUp = false ∧
    (processArgs
        (runSession
          (processArgs ⟨⟨"q", 0, "pomoc", 0, false⟩, false, 0, false⟩ 1
            ["time", "30"]).state
          [(2, "status"), (3, "question zmena temy")])
        9 ["time", "last"]).state.question.startTime = 9 ∧
    (processArgs
        (runSession
          (processArgs ⟨⟨"q", 0, "pomoc", 0, false⟩, false, 0, false⟩ 1
            ["time", "30"]).state
          [(2, "status"), (3, "question zmena temy")])
        9 ["time", "last"]).state.lastTime = 30 :=
  time_last_round_trip ⟨⟨"q", 0, "pomoc", 0, false⟩, false, 0, false⟩ 1 9
    "30" 30 [(2, "status"), (3, "question zmena temy")]
    (by decide) (by decide) (by decide) (by decide)

/-- Claim C8 counterexample: after `time 10000000000`, `time last` stores
the int64-wrapped duration -8446744073709551616 ns, not 10000000000
seconds, so the round trip does not restore `N` seconds for every
non-negative `N`. -/
theorem time_last_overflow_cex :
    (processArgs
        (processCommand ⟨⟨"q", 0, "pomoc", 0, false⟩, false, 0, false⟩ 0
          "time 10000000000").state
        5 ["time", "last"]).state.question.timeLeft
      = -8446744073709551616 ∧
    ¬ (processArgs
        (processCommand ⟨⟨"q", 0, "pomoc", 0, false⟩, false, 0, false⟩ 0
          "time 10000000000").state
        5 ["time", "last"]).state.question.timeLeft
      = 10000000000 * 1000000000 := by
  decide

/-! ### Claim about the command interpreter loop -/

/-- The leading words the CLI switch of `src/main.go` recognizes. -/
def knownCommand (c : String) : Bool :=
  decide (c = "logging" ∨ c = "exit" ∨ c = "question" ∨ c = "time" ∨
    c = "type" ∨ c = "status" ∨ c = "help")

/-- The error categories of the interpreter: wrong arity for `logging`,
`question`, `time` or `type`, an unknown sub-argument (including a `time`
argument that is no keyword and fails to parse non-negative), or an
unknown leading word. -/
def malformed (args : List String) : Prop :=
  (args.head? = some "logging" ∧ args.length ≠ 2) ∨
  (∃ a, args = ["logging", a] ∧ a ≠ "on" ∧ a ≠ "off") ∨
  (args.head? = some "question" ∧ args.length = 1) ∨
  (args.head? = some "time" ∧ args.length ≠ 2) ∨
  (∃ a, args = ["time", a] ∧ a ≠ "last" ∧ a ≠ "pause" ∧ a ≠ "countUp" ∧
    (atoi a = none ∨ ∃ w, atoi a = some w ∧ w < 0)) ∨
  (args.head? = some "type" ∧ args.length ≠ 2) ∨
  (∃ a, args = ["type", a] ∧ validTypes a = false) ∨
  (∃ c cs, args = c :: cs ∧ knownCommand c = false)

/-- Every malformed command takes an error branch of the switch: the state
is returned unchanged, an error is reported, the process does not exit. -/
theorem processArgs_malformed (st : CLIState) (now : Int)
    (args : List String) (h : malformed args) :
    processArgs st now args = ⟨st, true, false⟩ := by
  rcases h with ⟨hh, hl⟩ | ⟨a, ha, h1, h2⟩ | ⟨hh, hl⟩ | ⟨hh, hl⟩ |
    ⟨a, ha, h1, h2, h3, hbad⟩ | ⟨hh, hl⟩ | ⟨a, ha, hv⟩ | ⟨c, cs, hc, hk⟩
  · -- logging, wrong arity
    rcases args with _ | ⟨c, rest⟩
    · simp at hh
    · have hc : c = "logging" := by simpa using hh
      subst hc
      rcases rest with _ | ⟨a, _ | ⟨b, t⟩⟩
      · rfl
      · exact absurd rfl hl
      · rfl
  · -- logging, unknown sub-argument
    subst ha
    show loggingCmd st [a] = ⟨st, true, false⟩
    simp only [loggingCmd]
    rw [if_neg h1, if_neg h2]
  · -- question, wrong arity
    rcases args with _ | ⟨c, rest⟩
    · simp at hh
    · have hc : c = "question" := by simpa using hh
      subst hc
      rcases rest with _ | ⟨a, t⟩
      · rfl
      · simp at hl
  · -- time, wrong arity
    rcases args with _ | ⟨c, rest⟩
    · simp at hh
    · have hc : c = "time" := by simpa using hh
      subst hc
      rcases rest with _ | ⟨a, _ | ⟨b, t⟩⟩
      · rfl
      · exact absurd rfl hl
      · rfl
  · -- time, argument neither keyword nor non-negative integer
    subst ha
    show timeCmd st now [a] = ⟨st, true, false⟩
    simp only [timeCmd]
    rw [if_neg h1, if_neg h2, if_neg h3]
    rcases hbad with hn | ⟨w, hw, hwneg⟩
    · simp only [hn]
    · simp only [hw]
      rw [if_pos hwneg]
  · -- type, wrong arity
    rcases args with _ | ⟨c, rest⟩
    · simp at hh
    · have hc : c = "type" := by simpa using hh
      subst hc
      rcases rest with _ | ⟨a, _ | ⟨b, t⟩⟩
      · rfl
      · exact absurd rfl hl
      · rfl
  · -- type, invalid type
    subst ha
    show typeCmd st [a] = ⟨st, true, false⟩
    simp [typeCmd, hv]
  · -- unknown leading word
    subst hc
    simp only [knownCommand, decide_eq_false_iff_not] at hk
    push_neg at hk
    obtain ⟨k1, k2, k3, k4, k5, k6, k7⟩ := hk
    simp only [processArgs]
    rw [if_neg k1, if_neg k2, if_neg k3, if_neg k4, if_neg k5, if_neg k6,
      if_neg k7]

/-- Claim C9: the interpreter splits a line on ";", trims each piece and
skips empties (no empty command survives the pipeline), and a command with
wrong arity, an unknown sub-argument, or an unknown leading word is
reported as an error, mutates no state, does not stop the loop, and
processing continues with the next semicolon-delimited command. -/
theorem malformed_command_isolated (st : CLIState) (now : Int)
    (input piece cmd : String) (cs : List String)
    (hin : piece ∈ lineCommands input) (hm : malformed (fields cmd)) :
    ¬ piece = "" ∧
    (processCommand st now cmd).state = st ∧
    (processCommand st now cmd).isError = true ∧
    (processCommand st now cmd).exited = false ∧
    runCommands st now (cmd :: cs) = runCommands st now cs := by
  have hp := processArgs_malformed st now (fields cmd) hm
  refine ⟨?_, ?_, ?_, ?_, ?_⟩
  · unfold lineCommands at hin
    by_cases h : trimSpace input = ""
    · rw [if_pos h] at hin
      simp at hin
    · rw [if_neg h] at hin
      have hmem := List.mem_filter.mp hin
      simpa using hmem.2
  · show (processArgs st now (fields cmd)).state = st
    rw [hp]
  · show (processArgs st now (fields cmd)).isError = true
    rw [hp]
  · show (processArgs st now (fields cmd)).exited = false
    rw [hp]
  · simp only [runCommands, processCommand]
    rw [hp]
    simp

/-- Claim C9 witness: "a" survives the pipeline of a concrete line with an
empty piece; the malformed command `time abc` (unparsable sub-argument) on
a concrete state reports an error, changes nothing, and a following
`status` command still runs. -/
theorem malformed_command_isolated_witness :
    ¬ "a" = "" ∧
    (processCommand ⟨⟨"q", 5, "pomoc", 3, false⟩, false, 8, true⟩ 0
        "time abc").state = ⟨⟨"q", 5, "pomoc", 3, false⟩, false, 8, true⟩ ∧
    (processCommand ⟨⟨"q", 5, "pomoc", 3, false⟩, false, 8, true⟩ 0
        "time abc").isError = true ∧
    (processCommand ⟨⟨"q", 5, "pomoc", 3, false⟩, false, 8, true⟩ 0
        "time abc").exited = false ∧
    runCommands ⟨⟨"q", 5, "pomoc", 3, false⟩, false, 8, true⟩ 0
        ["time abc", "status"]
      = runCommands ⟨⟨"q", 5, "pomoc", 3, false⟩, false, 8, true⟩ 0
        ["status"] :=
  malformed_command_isolated ⟨⟨"q", 5, "pomoc", 3, false⟩, false, 8, true⟩ 0
    "a; ;b" "a" "time abc" ["status"] (by decide)
    (Or.inr (Or.inr (Or.inr (Or.inr (Or.inl
      ⟨"abc", by decide, by decide, by decide, by decide,
        Or.inl (by decide)⟩)))))
